import Mathlib

/-!
Shallow embedding of `simple_nostr_client` (`src/src/lib.rs`), a client-side
session manager for a nostr relay over a websocket.

The embedding models:
* the session loop `listen` (lines 307-402) as a per-iteration step function
  `listenStep` over an explicit `ListenState`, with the outbound-queue poll
  result, the transport receive result and the current time passed as inputs
  (in the source these come from `try_recv`, `recv_message` and
  `SystemTime::now`; time is modelled as a single natural number of seconds
  per iteration);
* the client handle `WsClient` as an explicit state record `WsClient`
  carrying the `connected` flag, the two queue endpoints (the inbound queue
  as a list of pending messages plus a disconnection flag, the outbound
  queue as the list of messages enqueued so far plus a disconnection flag)
  and the keypair;
* the external collaborators (nostr codec `RawRelayMessage::from_json` /
  `RelayMessage::try_from`, nip04 crypto, event signing, JSON encoding and
  the websocket handshake) as function parameters, mirroring their Rust
  result types.
-/

namespace SimpleNostr

/-- The `Error` enum of the source (lib.rs lines 26-44); payload-carrying
variants are modelled payload-free since the payloads are opaque here. -/
inductive Error where
  | WebSocket
  | Parse
  | Listen
  | Send
  | Receive
  | NonBlocking
  | NotConnected
  | KeysMissing
  | ArgMissing
  | Nip04Encrypt
  | Nip04Decrypt
  | NotNip04
  | SignEvent
  | ConnectionClosed
  | RawRelayMessage
  | RelayMessage
  deriving DecidableEq, Repr

/-- Outbound cross-thread message `SendMsg` (lib.rs lines 60-64). -/
inductive SendMsg where
  | Msg (m : String)
  | Stop
  deriving DecidableEq, Repr

/-- Inbound cross-thread message `RecvMsg` (lib.rs lines 66-70). -/
inductive RecvMsg where
  | Close
  | Msg (m : String)
  deriving DecidableEq, Repr

/-- Result of a non-blocking `Receiver::try_recv` on the outbound queue. -/
inductive TryRecv where
  | ok (m : SendMsg)
  | empty
  | disconnected
  deriving DecidableEq, Repr

/-- Websocket frame (`OwnedMessage` of the websocket crate). -/
inductive OwnedMessage where
  | Text (m : String)
  | Binary (b : List Nat)
  | Close
  | Ping (p : List Nat)
  | Pong (p : List Nat)
  deriving DecidableEq, Repr

/-- Classified `WebSocketError` shapes distinguished by the source's
error-handling arms (lib.rs lines 354-376); all are non-fatal there. -/
inductive WsError where
  | ProtocolError
  | DataFrameError
  | NoDataAvailable
  | IoWouldBlock
  | IoOther
  | Utf8Error
  | Other
  deriving DecidableEq, Repr

/-- Result of a non-blocking `recv_message` on the transport. -/
inductive RecvOutcome where
  | msg (m : OwnedMessage)
  | err (e : WsError)
  deriving DecidableEq, Repr

/-- The `PING_INTERVAL` constant (lib.rs line 24), in seconds. -/
def PING_INTERVAL : Nat := 5

/-- Mutable locals of the `listen` loop (lib.rs lines 312-314): the two
timestamps (seconds) and the `u8` ping nonce (kept `< 256` by the step). -/
structure ListenState where
  lastPing : Nat
  lastPong : Nat
  pingNonce : Nat
  deriving DecidableEq, Repr

/-- Observable outcome of one `listen` loop iteration. -/
structure IterResult where
  /-- Loop state at the end of the iteration. -/
  state : ListenState
  /-- Messages sent to the inbound queue during the iteration, in order. -/
  inbound : List RecvMsg
  /-- Frames sent to the transport during the iteration, in order. -/
  sent : List OwnedMessage
  /-- Whether the iteration returns from `listen` (loop terminates). -/
  exit : Bool
  deriving DecidableEq, Repr

/-- One iteration of the `listen` loop body (lib.rs lines 315-401).
`now` is the current time in seconds (the source's several
`SystemTime::now()` calls within one iteration are identified), `out` the
outbound-queue poll result and `recv` the transport receive result.
Mirrors the source order: outbound dequeue (a dequeued `Stop` or a
disconnected queue returns at once), transport receive (a `Text` frame is
forwarded inbound, a `Close` frame enqueues `RecvMsg.Close` and the loop
continues, a `Ping` is answered with a `Pong` carrying the same payload, a
`Pong` updates `lastPong`, errors are swallowed), the liveness ping, and
the pong watchdog. -/
def listenStep (st : ListenState) (now : Nat) (out : TryRecv)
    (recv : RecvOutcome) : IterResult :=
  match out with
  | .ok .Stop => { state := st, inbound := [], sent := [], exit := true }
  | .disconnected => { state := st, inbound := [], sent := [], exit := true }
  | _ =>
    let sent0 : List OwnedMessage :=
      match out with
      | .ok (.Msg m) => [.Text m]
      | _ => []
    let inbound1 : List RecvMsg :=
      match recv with
      | .msg (.Text m) => [.Msg m]
      | .msg .Close => [.Close]
      | _ => []
    let sent1 : List OwnedMessage :=
      match recv with
      | .msg (.Ping p) => [.Pong p]
      | _ => []
    let lastPong1 : Nat :=
      match recv with
      | .msg (.Pong _) => now
      | _ => st.lastPong
    let doPing : Bool := now - st.lastPing > PING_INTERVAL
    let nonce1 : Nat := if doPing then (st.pingNonce + 1) % 256 else st.pingNonce
    let lastPing1 : Nat := if doPing then now else st.lastPing
    let sent2 : List OwnedMessage := if doPing then [.Ping [nonce1]] else []
    let watchdog : Bool := now - lastPong1 > 3 * PING_INTERVAL
    { state := { lastPing := lastPing1, lastPong := lastPong1, pingNonce := nonce1 }
      inbound := if watchdog then inbound1 ++ [.Close] else inbound1
      sent := sent0 ++ sent1 ++ sent2
      exit := watchdog }

/-- A nostr keypair (`Keys` of the nostr crate), opaque here beyond the
secret/public pair; keys are naturals standing for opaque key material. -/
structure Keys where
  secretKey : Nat
  publicKey : Nat
  deriving DecidableEq, Repr

/-- A nostr event, reduced to the fields this client inspects
(kind, content, author pubkey). -/
structure Event where
  kind : Nat
  content : String
  pubkey : Nat
  deriving DecidableEq, Repr

/-- The `Kind::EncryptedDirectMessage` kind code (nostr kind 4). -/
def encryptedDirectMessage : Nat := 4

/-- A nostr filter as built by this client: `Filter::new().kind(..)` with an
optional `.pubkey(..)` and an optional `.since(..)` (seconds, as `Int`
mirroring the nostr crate's timestamp arithmetic). -/
structure RFilter where
  kind : Option Nat
  pubkey : Option Nat
  since : Option Int
  deriving DecidableEq, Repr

/-- The two `ClientMessage` shapes this client produces:
`ClientMessage::req` (subscribe) and `ClientMessage::event` (publish). -/
inductive ClientMsg where
  | req (subId : String) (filters : List RFilter)
  | event (ev : Event)
  deriving DecidableEq, Repr

/-- Argument record of `EventBuilder::new(kind, content, tags)`, with tags
reduced to the tagged public keys (the only tags this client creates). -/
structure EventBuilderM where
  kind : Nat
  content : String
  tags : List Nat
  deriving DecidableEq, Repr

/-- External-collaborator hooks of the client handle, passed as explicit
functions: nip04 encrypt/decrypt (`Option` mirrors their Rust `Result`),
event signing (`EventBuilder::to_event`), JSON encoding of outbound
messages. -/
structure Codec where
  enc : Nat → Nat → String → Option String
  dec : Nat → Nat → String → Option String
  sign : Keys → EventBuilderM → Option Event
  encode : ClientMsg → String

/-- Result of decoding an inbound text payload through
`RawRelayMessage::from_json` then `RelayMessage::try_from`
(try_receive, lib.rs lines 240-261): the first stage can fail (`rawErr`),
the second can fail (`relayErr`), and a decoded message is an event
delivery, an auth challenge, or something else. -/
inductive DecodeOutcome where
  | rawErr
  | relayErr
  | event (ev : Event)
  | auth
  | other
  deriving DecidableEq, Repr

/-- Decoder of inbound payloads (external nostr codec). -/
def Decoder := String → DecodeOutcome

/-- The `WsClient` handle state (lib.rs lines 72-81): the `connected`
flag, the keypair, and the two queue endpoints. The inbound queue is the
list of messages pending for the handle (head = next) plus a flag for the
session thread having dropped its sender; the outbound queue is the list
of messages the handle has enqueued so far plus a flag for the session
thread having dropped its receiver. -/
structure WsClient where
  connected : Bool
  keys : Keys
  inboundQueue : List RecvMsg
  inboundDisconnected : Bool
  outbound : List SendMsg
  outboundDisconnected : Bool
  deriving DecidableEq, Repr

namespace WsClient

/-- Method `is_connected` (lib.rs lines 278-284). -/
def is_connected (st : WsClient) : Except Error Unit :=
  if st.connected then .ok () else .error .NotConnected

/-- Method `send_raw` (lib.rs lines 216-219): checks `is_connected`, then sends on
the outbound channel, mapping a send failure (receiver dropped) to
`Error::Send`. -/
def send_raw (st : WsClient) (msg : String) : Except Error Unit × WsClient :=
  match st.is_connected with
  | .error e => (.error e, st)
  | .ok _ =>
    if st.outboundDisconnected then (.error .Send, st)
    else (.ok (), { st with outbound := st.outbound ++ [.Msg msg] })

/-- Method `try_receive_raw` (lib.rs lines 221-234): checks `is_connected`, does a
non-blocking receive on the inbound queue (`Empty ↦ Ok None`,
`Disconnected ↦ Err Receive`), and if the received message is `Close`
clears the `connected` flag. -/
def try_receive_raw (st : WsClient) : Except Error (Option RecvMsg) × WsClient :=
  match st.is_connected with
  | .error e => (.error e, st)
  | .ok _ =>
    match st.inboundQueue with
    | [] =>
      if st.inboundDisconnected then (.error .Receive, st) else (.ok none, st)
    | m :: rest =>
      let st' := { st with inboundQueue := rest }
      match m with
      | .Close => (.ok (some .Close), { st' with connected := false })
      | .Msg t => (.ok (some (.Msg t)), st')

/-- Method `encrypt` (lib.rs lines 161-167): nip04-encrypts with the handle's
secret key for the receiver, mapping failure to `Error::Nip04Encrypt`. -/
def encrypt (c : Codec) (st : WsClient) (receiver : Nat) (content : String) :
    Except Error String :=
  match c.enc st.keys.secretKey receiver content with
  | some s => .ok s
  | none => .error .Nip04Encrypt

/-- Method `decrypt` (lib.rs lines 178-181): nip04-decrypts with the handle's
secret key and the event author's pubkey, mapping failure to
`Error::Nip04Decrypt`. -/
def decrypt (c : Codec) (st : WsClient) (eventPubkey : Nat) (content : String) :
    Except Error String :=
  match c.dec st.keys.secretKey eventPubkey content with
  | some s => .ok s
  | none => .error .Nip04Decrypt

/-- Method `decrypt_dm` (lib.rs lines 169-176): rejects non-DM kinds with
`Error::NotNip04`, otherwise replaces the content with its decryption. -/
def decrypt_dm (c : Codec) (st : WsClient) (ev : Event) : Except Error Event :=
  if ev.kind ≠ encryptedDirectMessage then .error .NotNip04
  else
    match st.decrypt c ev.pubkey ev.content with
    | .error e => .error e
    | .ok content => .ok { ev with content := content }

/-- Method `try_receive` (lib.rs lines 236-265): `try_receive_raw`, then on a
`Close` returns `Err(ConnectionClosed)`; on a `Msg` decodes it
(`rawErr ↦ Err RawRelayMessage`, `relayErr ↦ Err RelayMessage`), delivers
event messages — decrypting in place when the kind is
`EncryptedDirectMessage` — and drops auth and other messages. -/
def try_receive (c : Codec) (d : Decoder) (st : WsClient) :
    Except Error (Option Event) × WsClient :=
  match st.try_receive_raw with
  | (.error e, st') => (.error e, st')
  | (.ok none, st') => (.ok none, st')
  | (.ok (some .Close), st') => (.error .ConnectionClosed, st')
  | (.ok (some (.Msg t)), st') =>
    match d t with
    | .rawErr => (.error .RawRelayMessage, st')
    | .relayErr => (.error .RelayMessage, st')
    | .auth => (.ok none, st')
    | .other => (.ok none, st')
    | .event ev =>
      if ev.kind = encryptedDirectMessage then
        match st'.decrypt_dm c ev with
        | .error e => (.error e, st')
        | .ok ev' => (.ok (some ev'), st')
      else (.ok (some ev), st')

/-- Method `stop` (lib.rs lines 267-272): if connected, clears the flag and
best-effort enqueues `SendMsg::Stop` (a failed send is ignored);
otherwise does nothing. -/
def stop (st : WsClient) : WsClient :=
  if st.connected then
    { st with
      connected := false
      outbound :=
        if st.outboundDisconnected then st.outbound
        else st.outbound ++ [.Stop] }
  else st

/-- The subscribe request built by `subscribe_dm` (lib.rs lines 185-188):
filter on kind `EncryptedDirectMessage` and the caller's own pubkey. -/
def subscribe_dm_msg (keys : Keys) (subId : String) : ClientMsg :=
  .req subId [{ kind := some encryptedDirectMessage
                pubkey := some keys.publicKey
                since := none }]

/-- Method `subscribe_dm` (lib.rs lines 183-191): checks `is_connected`, builds
the DM filter request with a generated subscription id, sends it raw. -/
def subscribe_dm (c : Codec) (st : WsClient) (subId : String) :
    Except Error Unit × WsClient :=
  match st.is_connected with
  | .error e => (.error e, st)
  | .ok _ => st.send_raw (c.encode (subscribe_dm_msg st.keys subId))

/-- The subscribe request built by `subscribe_pool` (lib.rs lines 195-197):
filter on the fixed kind `Custom(2022)` with
`since = Timestamp::now() - Timestamp::from_secs(back)`. -/
def subscribe_pool_msg (now : Int) (back : Nat) (subId : String) : ClientMsg :=
  .req subId [{ kind := some 2022, pubkey := none, since := some (now - back) }]

/-- Method `subscribe_pool` (lib.rs lines 193-200): checks `is_connected`, builds
the pool filter request with a generated subscription id, sends it raw.
`now` is `Timestamp::now()` in seconds. -/
def subscribe_pool (c : Codec) (st : WsClient) (now : Int) (back : Nat)
    (subId : String) : Except Error Unit × WsClient :=
  match st.is_connected with
  | .error e => (.error e, st)
  | .ok _ => st.send_raw (c.encode (subscribe_pool_msg now back subId))

/-- Method `post_event` (lib.rs lines 290-298): checks `is_connected`, signs the
event with the handle's keys (`Err SignEvent` on failure), encodes it as a
`ClientMessage::event` and sends it raw. -/
def post_event (c : Codec) (st : WsClient) (eb : EventBuilderM) :
    Except Error Unit × WsClient :=
  match st.is_connected with
  | .error e => (.error e, st)
  | .ok _ =>
    match c.sign st.keys eb with
    | none => (.error .SignEvent, st)
    | some ev => st.send_raw (c.encode (.event ev))

/-- Method `send_dm` (lib.rs lines 202-214): encrypts the content for the
receiver (propagating `Nip04Encrypt` failure before any connectivity
check), builds the DM event tagged with the receiver, then `post_event`. -/
def send_dm (c : Codec) (st : WsClient) (content : String) (receiver : Nat) :
    Except Error Unit × WsClient :=
  match st.encrypt c receiver content with
  | .error e => (.error e, st)
  | .ok ct =>
    st.post_event c { kind := encryptedDirectMessage, content := ct, tags := [receiver] }

end WsClient

/-- The `WsClientBuilder` record (lib.rs lines 93-97). -/
structure WsClientBuilder where
  relay : Option String
  keys : Option Keys
  deriving Repr

/-- Outcome of the external connection steps performed by
`WsClientBuilder::connect` (lib.rs lines 116-119): URL parsing
(`ClientBuilder::new`), the websocket handshake (`connect`), and switching
to non-blocking mode (`set_nonblocking`). -/
inductive HandshakeOutcome where
  | ok
  | parseErr
  | connectErr
  | nonBlockingErr
  deriving DecidableEq, Repr

/-- Method `WsClientBuilder::connect` (lib.rs lines 110-134): fails with
`ArgMissing` unless both relay and keys are set; then propagates a parse
error, a handshake error (`Error::WebSocket`) or a `NonBlocking` error;
on success creates the two channels and calls `WsClient::listen`
(lib.rs lines 147-159), which — the transport and both private channel
endpoints being freshly set — always spawns the session thread and sets
`connected = true`. -/
def connect (b : WsClientBuilder) (hs : HandshakeOutcome) :
    Except Error WsClient :=
  match b.relay, b.keys with
  | some _, some keys =>
    match hs with
    | .parseErr => .error .Parse
    | .connectErr => .error .WebSocket
    | .nonBlockingErr => .error .NonBlocking
    | .ok =>
      .ok { connected := true
            keys := keys
            inboundQueue := []
            inboundDisconnected := false
            outbound := []
            outboundDisconnected := false }
  | _, _ => .error .ArgMissing

/-! ## Concrete fixtures used to evaluate the theorems on closed inputs -/

/-- A codec whose external hooks all fail/return defaults. -/
def trivialCodec : Codec :=
  { enc := fun _ _ _ => none
    dec := fun _ _ _ => none
    sign := fun _ _ => none
    encode := fun _ => "" }

/-- A codec whose encryptor always succeeds with ciphertext `"CT"`. -/
def encCodec : Codec :=
  { enc := fun _ _ _ => some "CT"
    dec := fun _ _ _ => none
    sign := fun _ _ => none
    encode := fun _ => "" }

/-- A decoder that classifies every payload as an uninteresting message. -/
def dropDecoder : Decoder := fun _ => .other

/-- A decoder for which payload `"b"` is malformed and every other payload
decodes to a plain (non-DM) event. -/
def mixedDecoder : Decoder :=
  fun s => if s = "b" then .rawErr else .event { kind := 1, content := "x", pubkey := 9 }

/-- A connected handle with an empty inbound queue. -/
def stOn : WsClient :=
  { connected := true, keys := ⟨1, 2⟩, inboundQueue := []
    inboundDisconnected := false, outbound := [], outboundDisconnected := false }

/-- A disconnected handle. -/
def stOff : WsClient :=
  { connected := false, keys := ⟨1, 2⟩, inboundQueue := []
    inboundDisconnected := false, outbound := [], outboundDisconnected := false }

/-- A connected handle whose next inbound message is `Close`. -/
def stClosed : WsClient :=
  { connected := true, keys := ⟨1, 2⟩, inboundQueue := [.Close]
    inboundDisconnected := false, outbound := [], outboundDisconnected := false }

/-- A connected handle with a malformed payload queued ahead of a
well-formed one (relative to `mixedDecoder`). -/
def stDecode : WsClient :=
  { connected := true, keys := ⟨1, 2⟩, inboundQueue := [.Msg "b", .Msg "g"]
    inboundDisconnected := false, outbound := [], outboundDisconnected := false }

/-- A connected handle with only the well-formed payload queued. -/
def stGood : WsClient :=
  { connected := true, keys := ⟨1, 2⟩, inboundQueue := [.Msg "g"]
    inboundDisconnected := false, outbound := [], outboundDisconnected := false }

/-- A builder with both relay and keys set. -/
def builderFull : WsClientBuilder := ⟨some "wss://relay", some ⟨1, 2⟩⟩

/-- A builder missing the keys. -/
def builderNoKeys : WsClientBuilder := ⟨some "wss://relay", none⟩

/-! ## Session-loop claims -/

/-- C1, counterexample: in an iteration that observes a close frame (with
nothing outbound and the watchdog quiet), the loop enqueues `Close` on the
inbound queue but does `not` exit: `exit = false`, refuting "transitions
to Terminated, exiting the loop in that same iteration". -/
theorem listen_close_frame_no_exit_counterexample :
    RecvMsg.Close ∈ (listenStep ⟨0, 0, 0⟩ 0 .empty (.msg .Close)).inbound ∧
    (listenStep ⟨0, 0, 0⟩ 0 .empty (.msg .Close)).exit = false := by decide

/-- C1, amended: when the session loop observes a close frame from the
transport (and the outbound poll yielded nothing or a `Text` message), it
enqueues an Inbound `Close` message, but it does not transition to
`Terminated` on that account: the iteration exits if and only if the pong
watchdog independently fires in the same iteration. -/
theorem listen_close_frame_enqueues_close (st : ListenState) (now : Nat)
    (out : TryRecv) (hout : out = .empty ∨ ∃ m, out = .ok (.Msg m)) :
    RecvMsg.Close ∈ (listenStep st now out (.msg .Close)).inbound ∧
    ((listenStep st now out (.msg .Close)).exit = true ↔
      now - st.lastPong > 3 * PING_INTERVAL) := by
  rcases hout with h | ⟨m, h⟩ <;> subst h <;>
    simp [listenStep] <;>
    by_cases hw : now - st.lastPong > 3 * PING_INTERVAL <;>
    simp [hw]

/-- C1, witness for the amended theorem. -/
theorem listen_close_frame_enqueues_close_witness :
    RecvMsg.Close ∈ (listenStep ⟨0, 0, 0⟩ 20 .empty (.msg .Close)).inbound ∧
    ((listenStep ⟨0, 0, 0⟩ 20 .empty (.msg .Close)).exit = true ↔
      20 - (0 : Nat) > 3 * PING_INTERVAL) :=
  listen_close_frame_enqueues_close ⟨0, 0, 0⟩ 20 .empty (Or.inl rfl)

/-- C4: in an iteration that does not return early (outbound poll yielded
nothing or a `Text` message) and does not observe a pong frame, if the
elapsed time since the last pong exceeds `3 * PING_INTERVAL = 15` the loop
enqueues an Inbound `Close` and exits; and on a silent connection (the
transport receive only errors), the watchdog is the sole exit mechanism:
the iteration exits exactly when the elapsed time exceeds 15. -/
theorem listen_pong_watchdog (st : ListenState) (now : Nat) (out : TryRecv)
    (recv : RecvOutcome) (hout : out = .empty ∨ ∃ m, out = .ok (.Msg m))
    (hrecv : ∀ p, recv ≠ .msg (.Pong p)) :
    (now - st.lastPong > 3 * PING_INTERVAL →
      (listenStep st now out recv).exit = true ∧
      RecvMsg.Close ∈ (listenStep st now out recv).inbound) ∧
    (∀ e, recv = .err e →
      ((listenStep st now out recv).exit = true ↔
        now - st.lastPong > 3 * PING_INTERVAL)) := by
  rcases hout with h | ⟨m, h⟩ <;> subst h <;>
    cases recv with
    | msg m' =>
      cases m' with
      | Pong p => exact absurd rfl (hrecv p)
      | Text s =>
        by_cases hw : now - st.lastPong > 3 * PING_INTERVAL <;>
          simp [listenStep, hw]
      | Binary b =>
        by_cases hw : now - st.lastPong > 3 * PING_INTERVAL <;>
          simp [listenStep, hw]
      | Close =>
        by_cases hw : now - st.lastPong > 3 * PING_INTERVAL <;>
          simp [listenStep, hw]
      | Ping p =>
        by_cases hw : now - st.lastPong > 3 * PING_INTERVAL <;>
          simp [listenStep, hw]
    | err e =>
      by_cases hw : now - st.lastPong > 3 * PING_INTERVAL <;>
        simp [listenStep, hw]

/-- C4, witness. -/
theorem listen_pong_watchdog_witness :
    ((16 - (0 : Nat) > 3 * PING_INTERVAL →
      (listenStep ⟨16, 0, 7⟩ 16 .empty (.err .NoDataAvailable)).exit = true ∧
      RecvMsg.Close ∈ (listenStep ⟨16, 0, 7⟩ 16 .empty (.err .NoDataAvailable)).inbound) ∧
    (∀ e, RecvOutcome.err .NoDataAvailable = .err e →
      ((listenStep ⟨16, 0, 7⟩ 16 .empty (.err .NoDataAvailable)).exit = true ↔
        16 - (0 : Nat) > 3 * PING_INTERVAL))) ∧
    16 - (0 : Nat) > 3 * PING_INTERVAL :=
  ⟨listen_pong_watchdog ⟨16, 0, 7⟩ 16 .empty (.err .NoDataAvailable)
      (Or.inl rfl) (by intro p h; cases h),
    by decide⟩

/-- C9: in an iteration that does not return early, when the elapsed time
since the last ping exceeds `PING_INTERVAL = 5`, the nonce is incremented
modulo `2^8`, the loop sends a ping frame whose payload is exactly that
one byte, and the last-ping timestamp is reset to the current time. -/
theorem listen_ping_nonce_wraps (st : ListenState) (now : Nat) (out : TryRecv)
    (recv : RecvOutcome) (hout : out = .empty ∨ ∃ m, out = .ok (.Msg m))
    (hp : now - st.lastPing > PING_INTERVAL) :
    (listenStep st now out recv).state.pingNonce = (st.pingNonce + 1) % 256 ∧
    OwnedMessage.Ping [(st.pingNonce + 1) % 256] ∈ (listenStep st now out recv).sent ∧
    (listenStep st now out recv).state.lastPing = now := by
  rcases hout with h | ⟨m, h⟩ <;> subst h <;>
    simp [listenStep, hp]

/-- C9, witness: at nonce 255 the increment wraps to 0 and the ping frame
carries the single byte 0. -/
theorem listen_ping_nonce_wraps_witness :
    6 - (0 : Nat) > PING_INTERVAL ∧
    ((listenStep ⟨0, 6, 255⟩ 6 .empty (.err .NoDataAvailable)).state.pingNonce =
        (255 + 1) % 256 ∧
      OwnedMessage.Ping [(255 + 1) % 256] ∈
        (listenStep ⟨0, 6, 255⟩ 6 .empty (.err .NoDataAvailable)).sent ∧
      (listenStep ⟨0, 6, 255⟩ 6 .empty (.err .NoDataAvailable)).state.lastPing = 6) :=
  ⟨by decide,
    listen_ping_nonce_wraps ⟨0, 6, 255⟩ 6 .empty (.err .NoDataAvailable)
      (Or.inl rfl) (by decide)⟩

/-! ## Client-handle claims -/

/-- C2: on a handle whose next inbound message is `Close` while still
connected, `try_receive` returns `Err(ConnectionClosed)` and sets
`connected` to `false`; and on any handle with `connected = false` (hence
on every subsequent call of this handle), `try_receive` returns
`Err(NotConnected)` — so `ConnectionClosed` is surfaced exactly once. -/
theorem try_receive_connection_closed_once (c : Codec) (d : Decoder)
    (st : WsClient) (h1 : st.connected = true)
    (h2 : st.inboundQueue.head? = some .Close) :
    (st.try_receive c d).1 = .error .ConnectionClosed ∧
    (st.try_receive c d).2.connected = false ∧
    ∀ (c2 : Codec) (d2 : Decoder) (st2 : WsClient), st2.connected = false →
      (st2.try_receive c2 d2).1 = .error .NotConnected := by
  cases hq : st.inboundQueue with
  | nil => simp [hq] at h2
  | cons m rest =>
    rw [hq] at h2
    simp at h2
    subst h2
    refine ⟨?_, ?_, ?_⟩
    · simp [WsClient.try_receive, WsClient.try_receive_raw,
        WsClient.is_connected, h1, hq]
    · simp [WsClient.try_receive, WsClient.try_receive_raw,
        WsClient.is_connected, h1, hq]
    · intro c2 d2 st2 hc2
      simp [WsClient.try_receive, WsClient.try_receive_raw,
        WsClient.is_connected, hc2]

/-- C2, witness. -/
theorem try_receive_connection_closed_once_witness :
    (WsClient.try_receive trivialCodec dropDecoder stClosed).1 =
      .error .ConnectionClosed ∧
    (WsClient.try_receive trivialCodec dropDecoder stClosed).2.connected = false ∧
    (WsClient.try_receive trivialCodec dropDecoder stOff).1 =
      .error .NotConnected :=
  ⟨(try_receive_connection_closed_once trivialCodec dropDecoder stClosed rfl rfl).1,
   (try_receive_connection_closed_once trivialCodec dropDecoder stClosed rfl rfl).2.1,
   (try_receive_connection_closed_once trivialCodec dropDecoder stClosed rfl rfl).2.2
     trivialCodec dropDecoder stOff rfl⟩

/-- C3, counterexample: the custom subscription operation
(`subscribe_pool`) takes no event-kind argument; the request it builds
always filters on the fixed kind `2022`, so the claim instantiated at
event kind 1 ("the filter selects kind 1") is false: at `now = 1000`,
`back = 10` the built filter has kind `2022 ≠ 1`. -/
theorem subscribe_pool_kind_not_parameter_counterexample :
    WsClient.subscribe_pool_msg 1000 10 "s" =
      .req "s" [{ kind := some 2022, pubkey := none, since := some 990 }] ∧
    (2022 : Nat) ≠ 1 := by
  refine ⟨?_, by decide⟩
  simp [WsClient.subscribe_pool_msg]

/-- C3, amended: for every duration `back`, on a connected handle with an
open outbound queue, `subscribe_pool` builds and enqueues a subscribe
request whose single filter selects the fixed event kind `2022` (the kind
is not a parameter) with lower time bound `now - back`. -/
theorem subscribe_pool_enqueues_fixed_kind (c : Codec) (st : WsClient)
    (now : Int) (back : Nat) (subId : String)
    (hc : st.connected = true) (hq : st.outboundDisconnected = false) :
    (st.subscribe_pool c now back subId).1 = .ok () ∧
    (st.subscribe_pool c now back subId).2.outbound =
      st.outbound ++ [.Msg (c.encode (.req subId
        [{ kind := some 2022, pubkey := none, since := some (now - back) }]))] := by
  simp [WsClient.subscribe_pool, WsClient.send_raw, WsClient.is_connected,
    WsClient.subscribe_pool_msg, hc, hq]

/-- C3, witness for the amended theorem. -/
theorem subscribe_pool_enqueues_fixed_kind_witness :
    (WsClient.subscribe_pool encCodec stOn 1000 10 "s").1 = .ok () ∧
    (WsClient.subscribe_pool encCodec stOn 1000 10 "s").2.outbound =
      stOn.outbound ++ [.Msg (encCodec.encode (.req "s"
        [{ kind := some 2022, pubkey := none,
           since := some ((1000 : Int) - (10 : Nat)) }]))] :=
  subscribe_pool_enqueues_fixed_kind encCodec stOn 1000 10 "s" rfl rfl

/-- C5, counterexample: on a disconnected handle, `send_dm` first runs
nip04 encryption and propagates its failure, so with a failing encryptor
it returns `Err(Nip04Encrypt)`, not `Err(NotConnected)` — refuting "every
subsequent protocol operation returns the NotConnected error". -/
theorem send_dm_after_disconnect_counterexample :
    (WsClient.send_dm trivialCodec stOff "hi" 7).1 = .error .Nip04Encrypt ∧
    Error.Nip04Encrypt ≠ Error.NotConnected :=
  ⟨rfl, by decide⟩

/-- C5, amended: on a handle with `connected = false`, `post_event`,
`subscribe_dm`, `subscribe_pool` and `try_receive` return
`Err(NotConnected)`; `send_dm` encrypts before any connectivity check, so
it returns `Err(NotConnected)` when encryption succeeds and
`Err(Nip04Encrypt)` when encryption fails. -/
theorem ops_after_disconnect_not_connected (c : Codec) (d : Decoder)
    (st : WsClient) (eb : EventBuilderM) (content : String) (receiver : Nat)
    (now : Int) (back : Nat) (subId : String) (hc : st.connected = false) :
    (st.post_event c eb).1 = .error .NotConnected ∧
    (st.subscribe_dm c subId).1 = .error .NotConnected ∧
    (st.subscribe_pool c now back subId).1 = .error .NotConnected ∧
    (st.try_receive c d).1 = .error .NotConnected ∧
    ((∃ ct, c.enc st.keys.secretKey receiver content = some ct) →
      (st.send_dm c content receiver).1 = .error .NotConnected) ∧
    (c.enc st.keys.secretKey receiver content = none →
      (st.send_dm c content receiver).1 = .error .Nip04Encrypt) := by
  refine ⟨?_, ?_, ?_, ?_, ?_, ?_⟩
  · simp [WsClient.post_event, WsClient.is_connected, hc]
  · simp [WsClient.subscribe_dm, WsClient.is_connected, hc]
  · simp [WsClient.subscribe_pool, WsClient.is_connected, hc]
  · simp [WsClient.try_receive, WsClient.try_receive_raw,
      WsClient.is_connected, hc]
  · rintro ⟨ct, hct⟩
    simp [WsClient.send_dm, WsClient.encrypt, WsClient.post_event,
      WsClient.is_connected, hct, hc]
  · intro hct
    simp [WsClient.send_dm, WsClient.encrypt, hct]

/-- C5, witness for the amended theorem. -/
theorem ops_after_disconnect_not_connected_witness :
    (WsClient.post_event encCodec stOff ⟨1, "m", []⟩).1 = .error .NotConnected ∧
    (WsClient.subscribe_dm encCodec stOff "s").1 = .error .NotConnected ∧
    (WsClient.subscribe_pool encCodec stOff 1000 10 "s").1 = .error .NotConnected ∧
    (WsClient.try_receive encCodec dropDecoder stOff).1 = .error .NotConnected ∧
    (WsClient.send_dm encCodec stOff "hi" 7).1 = .error .NotConnected :=
  ⟨(ops_after_disconnect_not_connected encCodec dropDecoder stOff ⟨1, "m", []⟩
      "hi" 7 1000 10 "s" rfl).1,
   (ops_after_disconnect_not_connected encCodec dropDecoder stOff ⟨1, "m", []⟩
      "hi" 7 1000 10 "s" rfl).2.1,
   (ops_after_disconnect_not_connected encCodec dropDecoder stOff ⟨1, "m", []⟩
      "hi" 7 1000 10 "s" rfl).2.2.1,
   (ops_after_disconnect_not_connected encCodec dropDecoder stOff ⟨1, "m", []⟩
      "hi" 7 1000 10 "s" rfl).2.2.2.1,
   (ops_after_disconnect_not_connected encCodec dropDecoder stOff ⟨1, "m", []⟩
      "hi" 7 1000 10 "s" rfl).2.2.2.2.1 ⟨"CT", rfl⟩⟩

/-- C6: `stop` is idempotent — `stop (stop st) = stop st`, so a second
call neither errors (it is total) nor enqueues a second `Stop`; on a
connected handle it clears `connected` and enqueues exactly one `Stop`
when the outbound queue is open, and still clears `connected` while
enqueueing nothing when the send side has failed (failure ignored). -/
theorem stop_idempotent (st : WsClient) :
    st.stop.stop = st.stop ∧
    (st.connected = true → st.outboundDisconnected = false →
      st.stop.connected = false ∧ st.stop.outbound = st.outbound ++ [.Stop]) ∧
    (st.connected = true → st.outboundDisconnected = true →
      st.stop.connected = false ∧ st.stop.outbound = st.outbound) := by
  by_cases hc : st.connected <;>
    by_cases ho : st.outboundDisconnected <;>
      simp [WsClient.stop, hc, ho]

/-- C6, witness. -/
theorem stop_idempotent_witness :
    stOn.stop.stop = stOn.stop ∧
    (stOn.stop.connected = false ∧ stOn.stop.outbound = stOn.outbound ++ [.Stop]) :=
  ⟨(stop_idempotent stOn).1, (stop_idempotent stOn).2.1 rfl rfl⟩

/-- C7: on a connected handle whose next inbound message is a Text
payload that fails decoding (at either stage), `try_receive` returns the
corresponding decode error (`RawRelayMessage` or `RelayMessage`), the
handle remains connected, the malformed message is consumed — and from
any connected handle whose next payload decodes to a (non-DM) event,
`try_receive` delivers that event, so a subsequent well-formed message is
still delivered. -/
theorem try_receive_decode_error_keeps_connected (c : Codec) (d : Decoder)
    (st : WsClient) (t : String) (rest : List RecvMsg)
    (hc : st.connected = true) (hq : st.inboundQueue = .Msg t :: rest)
    (hm : d t = .rawErr ∨ d t = .relayErr) :
    ((st.try_receive c d).1 = .error .RawRelayMessage ∨
      (st.try_receive c d).1 = .error .RelayMessage) ∧
    (st.try_receive c d).2.connected = true ∧
    (st.try_receive c d).2.inboundQueue = rest ∧
    (∀ (c2 : Codec) (d2 : Decoder) (st2 : WsClient) (t2 : String)
      (rest2 : List RecvMsg) (ev : Event),
      st2.connected = true → st2.inboundQueue = .Msg t2 :: rest2 →
      d2 t2 = .event ev → ev.kind ≠ encryptedDirectMessage →
      (st2.try_receive c2 d2).1 = .ok (some ev) ∧
      (st2.try_receive c2 d2).2.connected = true) := by
  have main : ∀ (c2 : Codec) (d2 : Decoder) (st2 : WsClient) (t2 : String)
      (rest2 : List RecvMsg) (ev : Event),
      st2.connected = true → st2.inboundQueue = .Msg t2 :: rest2 →
      d2 t2 = .event ev → ev.kind ≠ encryptedDirectMessage →
      (st2.try_receive c2 d2).1 = .ok (some ev) ∧
      (st2.try_receive c2 d2).2.connected = true := by
    intro c2 d2 st2 t2 rest2 ev hc2 hq2 hd2 hk2
    simp [WsClient.try_receive, WsClient.try_receive_raw,
      WsClient.is_connected, hc2, hq2, hd2, hk2]
  refine ⟨?_, ?_, ?_, main⟩ <;>
    rcases hm with hm' | hm' <;>
      simp [WsClient.try_receive, WsClient.try_receive_raw,
        WsClient.is_connected, hc, hq, hm']

/-- C7, witness: the malformed payload `"b"` yields the raw decode error
with the handle still connected and `"g"` left queued; the well-formed
payload `"g"` is then delivered as the decoded event. -/
theorem try_receive_decode_error_keeps_connected_witness :
    (((WsClient.try_receive trivialCodec mixedDecoder stDecode).1 =
        .error .RawRelayMessage ∨
      (WsClient.try_receive trivialCodec mixedDecoder stDecode).1 =
        .error .RelayMessage) ∧
     (WsClient.try_receive trivialCodec mixedDecoder stDecode).2.connected = true ∧
     (WsClient.try_receive trivialCodec mixedDecoder stDecode).2.inboundQueue =
       [.Msg "g"]) ∧
    ((WsClient.try_receive trivialCodec mixedDecoder stGood).1 =
        .ok (some { kind := 1, content := "x", pubkey := 9 }) ∧
     (WsClient.try_receive trivialCodec mixedDecoder stGood).2.connected = true) :=
  ⟨⟨(try_receive_decode_error_keeps_connected trivialCodec mixedDecoder stDecode
        "b" [.Msg "g"] rfl rfl (Or.inl (by decide))).1,
    (try_receive_decode_error_keeps_connected trivialCodec mixedDecoder stDecode
        "b" [.Msg "g"] rfl rfl (Or.inl (by decide))).2.1,
    (try_receive_decode_error_keeps_connected trivialCodec mixedDecoder stDecode
        "b" [.Msg "g"] rfl rfl (Or.inl (by decide))).2.2.1⟩,
   (try_receive_decode_error_keeps_connected trivialCodec mixedDecoder stDecode
        "b" [.Msg "g"] rfl rfl (Or.inl (by decide))).2.2.2
     trivialCodec mixedDecoder stGood "g" [] ⟨1, "x", 9⟩ rfl rfl (by decide) (by decide)⟩

/-- C8: `connect` returns `Err(ArgMissing)` when the relay or the keys
are missing; with both present it returns the connection error
(`Error::WebSocket`) when the handshake fails, and on success a handle
with `connected = true`. -/
theorem connect_requires_args (b : WsClientBuilder) (hs : HandshakeOutcome) :
    ((b.relay = none ∨ b.keys = none) → connect b hs = .error .ArgMissing) ∧
    (b.relay ≠ none → b.keys ≠ none → hs = .connectErr →
      connect b hs = .error .WebSocket) ∧
    (b.relay ≠ none → b.keys ≠ none → hs = .ok →
      ∃ st, connect b hs = .ok st ∧ st.connected = true) := by
  obtain ⟨r, k⟩ := b
  cases r <;> cases k <;> cases hs <;>
    refine ⟨?_, ?_, ?_⟩ <;> simp [connect]

/-- C8, witness. -/
theorem connect_requires_args_witness :
    connect builderNoKeys .ok = .error .ArgMissing ∧
    connect builderFull .connectErr = .error .WebSocket ∧
    ∃ st, connect builderFull .ok = .ok st ∧ st.connected = true :=
  ⟨(connect_requires_args builderNoKeys .ok).1 (Or.inr rfl),
   (connect_requires_args builderFull .connectErr).2.1
     (by simp [builderFull]) (by simp [builderFull]) rfl,
   (connect_requires_args builderFull .ok).2.2
     (by simp [builderFull]) (by simp [builderFull]) rfl⟩

/-- C10: `encrypt`, `decrypt` and `decrypt_dm` never inspect the
`connected` flag — flipping it changes nothing in their results — and
`decrypt_dm` fails with `NotNip04` on any non-direct-message kind; with a
succeeding encryptor, `encrypt` succeeds on any handle state, including a
disconnected one. -/
theorem crypto_ignores_connected (c : Codec) (st : WsClient) (b : Bool)
    (receiver p : Nat) (content ct : String) (ev : Event) :
    (WsClient.encrypt c { st with connected := b } receiver content =
      WsClient.encrypt c st receiver content) ∧
    (WsClient.decrypt c { st with connected := b } p content =
      WsClient.decrypt c st p content) ∧
    (WsClient.decrypt_dm c { st with connected := b } ev =
      WsClient.decrypt_dm c st ev) ∧
    (ev.kind ≠ encryptedDirectMessage →
      WsClient.decrypt_dm c st ev = .error .NotNip04) ∧
    (c.enc st.keys.secretKey receiver content = some ct →
      WsClient.encrypt c st receiver content = .ok ct) := by
  refine ⟨rfl, rfl, rfl, ?_, ?_⟩
  · intro hk
    simp [WsClient.decrypt_dm, hk]
  · intro he
    simp [WsClient.encrypt, he]

/-- C10, witness: encryption succeeds on a disconnected handle;
`decrypt_dm` on a kind-1 event fails with `NotNip04`. -/
theorem crypto_ignores_connected_witness :
    WsClient.encrypt encCodec stOff 7 "m" = .ok "CT" ∧
    WsClient.decrypt_dm encCodec stOff ⟨1, "x", 9⟩ = .error .NotNip04 :=
  ⟨(crypto_ignores_connected encCodec stOff false 7 9 "m" "CT" ⟨1, "x", 9⟩).2.2.2.2 rfl,
   (crypto_ignores_connected encCodec stOff false 7 9 "m" "CT" ⟨1, "x", 9⟩).2.2.2.1
     (by decide)⟩

end SimpleNostr
